import Mathlib

/-!
Shallow embedding of `source/lib/kda-flink-application.ts` (the
`FlinkApplication` CDK construct) and proofs of its specified properties.

The construct is a definition-time graph builder: given a props record it
either throws (invalid verbosity value) or assembles a fixed set of
resource definitions (log group, log stream, execution role with attached
policies, two CloudFormation conditions, the Kinesis Analytics application,
a logging attachment, and a custom resource carrying the network-attachment
request).  We model CDK token strings explicitly, the constructor as a pure
function returning `Except`, and the statement-ordered trace of the
constructor body for the fail-fast property.
-/

namespace KdaFlink

/-- String values in a CDK app: either a concrete literal known at
definition time, or an unresolved token whose value is only known once the
template is resolved (`cdk.Token`). -/
inductive CdkStr
| lit (s : String)
| token (id : Nat)
deriving DecidableEq

namespace Token

/-- cdk.Token.isUnresolved: true exactly on deferred tokens. -/
def isUnresolved : CdkStr → Bool
| CdkStr.lit _ => false
| CdkStr.token _ => true

end Token

/-- Rendering of a `CdkStr` as the string the TypeScript code manipulates:
a literal renders as itself, a token as its opaque encoded form. -/
def strOf : CdkStr → String
| CdkStr.lit s => s
| CdkStr.token i => "Token[" ++ toString i ++ "]"

/-- Resolution of a `CdkStr` by the templating engine, given an environment
assigning a concrete string to every token. -/
def resolveStr (ρ : Nat → String) : CdkStr → String
| CdkStr.lit s => s
| CdkStr.token i => ρ i

/-- cdk.Aws.PARTITION pseudo parameter (an opaque deploy-time value). -/
def awsPartition : String := "Ref.AWS.Partition"

/-- cdk.Aws.REGION pseudo parameter. -/
def awsRegion : String := "Ref.AWS.Region"

/-- cdk.Aws.ACCOUNT_ID pseudo parameter. -/
def awsAccountId : String := "Ref.AWS.AccountId"

/-- Deploy-time attribute token: this.LogGroup.logGroupArn. -/
def logGroupArnToken : String := "Attr.LogGroup.Arn"

/-- Deploy-time attribute token: this.LogGroup.logGroupName. -/
def logGroupNameToken : String := "Attr.LogGroup.Name"

/-- Deploy-time attribute token: logStream.logStreamName. -/
def logStreamNameToken : String := "Attr.LogStream.Name"

/-- Deploy-time token: this.Application.ref (the CFN-assigned name). -/
def applicationRefToken : String := "Ref.Application"

/-- Deploy-time attribute token: role.roleArn of the application role. -/
def appRoleArnToken : String := "Attr.AppRole.Arn"

/-- Deploy-time attribute token: customResourceFunction.functionArn. -/
def customResourceFnArnToken : String := "Attr.CustomResourceFn.Arn"

/-- FlinkApplicationProps, the caller-supplied input record.  Stream and
bucket references are represented by their names (all the construct uses
of them: grant delegation and the environment property map). -/
structure FlinkApplicationProps where
  inputStreamName : String
  outputBucketName : String
  logsRetentionDays : Nat
  logLevel : CdkStr
  metricsLevel : CdkStr
  codeBucketArn : String
  codeFileKey : String
  enableSnapshots : CdkStr
  enableAutoScaling : CdkStr
  subnetIds : Option (List String)
  securityGroupIds : Option (List String)
deriving DecidableEq

namespace FlinkApplication

/-- FlinkApplication.AllowedLogLevels static constant. -/
def AllowedLogLevels : List String := ["DEBUG", "ERROR", "INFO", "WARN"]

/-- FlinkApplication.AllowedMetricLevels static constant. -/
def AllowedMetricLevels : List String := ["APPLICATION", "OPERATOR", "PARALLELISM", "TASK"]

end FlinkApplication

/-- First validation statement of the constructor body: throws
`Unknown log level` when the value is concretely known and not allowed. -/
def validateLogLevel (p : FlinkApplicationProps) : Option String :=
  if !Token.isUnresolved p.logLevel &&
      !(FlinkApplication.AllowedLogLevels.contains (strOf p.logLevel)) then
    some ("Unknown log level: " ++ strOf p.logLevel)
  else none

/-- Second validation statement of the constructor body: throws
`Unknown metrics level` when the value is concretely known and not allowed. -/
def validateMetricsLevel (p : FlinkApplicationProps) : Option String :=
  if !Token.isUnresolved p.metricsLevel &&
      !(FlinkApplication.AllowedMetricLevels.contains (strOf p.metricsLevel)) then
    some ("Unknown metrics level: " ++ strOf p.metricsLevel)
  else none

/-- Both validation statements in source order; the first failure throws. -/
def validateVerbosity (p : FlinkApplicationProps) : Option String :=
  match validateLogLevel p with
  | some e => some e
  | none => validateMetricsLevel p

/-- One IAM policy statement: a resource list and an action list. -/
structure PolicyStatement where
  resources : List String
  actions : List String
deriving DecidableEq

/-- One grant attached to a role: either an explicit policy statement, or a
grant delegated to a resource's own grant contract (stream.grantRead,
bucket.grantReadWrite). -/
inductive Grant
| statement (s : PolicyStatement)
| streamRead (streamName : String)
| bucketReadWrite (bucketName : String)
deriving DecidableEq

/-- A named IAM policy: its statements and any cfn_nag suppressions set on
its underlying CfnPolicy metadata. -/
structure Policy where
  name : String
  statements : List PolicyStatement
  suppressions : List String
deriving DecidableEq

/-- An IAM role with its attached policies and delegated grants, in
attachment order. -/
structure Role where
  assumedBy : String
  policies : List Policy
  delegated : List Grant
deriving DecidableEq

/-- stream.grantRead(role): the stream appends its read grant to the role. -/
def grantRead (streamName : String) (r : Role) : Role :=
  { r with delegated := r.delegated ++ [Grant.streamRead streamName] }

/-- bucket.grantReadWrite(role): the bucket appends its read/write grant. -/
def grantReadWrite (bucketName : String) (r : Role) : Role :=
  { r with delegated := r.delegated ++ [Grant.bucketReadWrite bucketName] }

/-- FlinkApplication.createRole: the application execution role with the
CodePolicy, LogsPolicy and VpcPolicy attached in source order. -/
def createRole (logGroupArn : String) (bucketArn : String) (fileKey : String) : Role :=
  let s3Policy : Policy :=
    { name := "CodePolicy",
      statements := [
        { resources := [bucketArn ++ "/" ++ fileKey],
          actions := ["s3:GetObjectVersion", "s3:GetObject"] }],
      suppressions := [] }
  let logsPolicy : Policy :=
    { name := "LogsPolicy",
      statements := [
        { resources := ["arn:" ++ awsPartition ++ ":logs:" ++ awsRegion ++ ":" ++
            awsAccountId ++ ":log-group:*"],
          actions := ["logs:DescribeLogGroups"] },
        { resources := [logGroupArn],
          actions := ["logs:DescribeLogStreams", "logs:PutLogEvents"] }],
      suppressions := [] }
  let vpcPolicy : Policy :=
    { name := "VpcPolicy",
      statements := [
        { resources := ["*"],
          actions := [
            "ec2:CreateNetworkInterface",
            "ec2:DescribeNetworkInterfaces",
            "ec2:DescribeVpcs",
            "ec2:DeleteNetworkInterface",
            "ec2:DescribeDhcpOptions",
            "ec2:DescribeSubnets",
            "ec2:DescribeSecurityGroups"] },
        { resources := ["arn:" ++ awsPartition ++ ":ec2:" ++ awsRegion ++ ":" ++
            awsAccountId ++ ":network-interface/*"],
          actions := ["ec2:CreateNetworkInterfacePermission"] }],
      suppressions := ["W12"] }
  { assumedBy := "kinesisanalytics.amazonaws.com",
    policies := [s3Policy, logsPolicy, vpcPolicy],
    delegated := [] }

/-- Flattened grant set of a role: every statement of every attached
policy, followed by the delegated grants, in attachment order. -/
def roleGrants (r : Role) : List Grant :=
  ((r.policies.map (fun pol => pol.statements)).flatten).map Grant.statement ++ r.delegated

/-- Deferred condition expression (cdk.Fn.conditionEquals applied to a
possibly-unresolved value and a literal). -/
inductive CondExpr
| eqStr (a : CdkStr) (b : String)
deriving DecidableEq

/-- Resolution of a condition expression by the templating engine. -/
def resolveCond (ρ : Nat → String) : CondExpr → Bool
| CondExpr.eqStr a b => resolveStr ρ a == b

/-- A template-level boolean: either a literal, or a deferred ternary
(cdk.Fn.conditionIf) over a named condition. -/
inductive CfnBool
| lit (b : Bool)
| conditionIf (condId : String) (t : Bool) (f : Bool)
deriving DecidableEq

/-- Lookup of a condition by logical id in the template's condition list. -/
def lookupCond (conds : List (String × CondExpr)) (cid : String) : Option CondExpr :=
  (conds.find? (fun c => c.fst == cid)).map Prod.snd

/-- Resolution of a template-level boolean by the templating engine. -/
def resolveCfnBool (ρ : Nat → String) (conds : List (String × CondExpr)) : CfnBool → Bool
| CfnBool.lit b => b
| CfnBool.conditionIf cid t f =>
  match lookupCond conds cid with
  | some c => if resolveCond ρ c then t else f
  | none => false

/-- Monitoring configuration block of the application resource. -/
structure MonitoringConfiguration where
  configurationType : String
  logLevel : CdkStr
  metricsLevel : CdkStr
deriving DecidableEq

/-- Parallelism configuration block of the application resource. -/
structure ParallelismConfiguration where
  configurationType : String
  autoScalingEnabled : CfnBool
deriving DecidableEq

/-- The CfnApplicationV2 resource: the fields assembled by the constructor. -/
structure ApplicationResource where
  runtimeEnvironment : String
  serviceExecutionRole : String
  codeBucketArn : String
  codeFileKey : String
  codeContentType : String
  propertyGroupId : String
  propertyMap : List (String × String)
  monitoring : MonitoringConfiguration
  parallelism : ParallelismConfiguration
  checkpointConfigurationType : String
  snapshotsEnabled : CfnBool
  ref : String
deriving DecidableEq

/-- The CfnApplicationCloudWatchLoggingOptionV2 resource. -/
structure CloudWatchLoggingOption where
  applicationName : String
  logStreamArn : String
deriving DecidableEq

/-- FlinkApplication.configureLogging: builds the log-stream ARN by string
composition and attaches it to the application by name. -/
def configureLogging (appName : String) (logGroupName : String) (logStreamName : String) :
    CloudWatchLoggingOption :=
  { applicationName := appName,
    logStreamArn := "arn:" ++ awsPartition ++ ":logs:" ++ awsRegion ++ ":" ++
      awsAccountId ++ ":log-group:" ++ logGroupName ++ ":log-stream:" ++ logStreamName }

/-- Modelled from the spec: the ExecutionRole construct comes from
`lambda-role-cloudwatch`, a repository file that is not under src/.  Per
the spec (section 4.6), the callback role carries exactly the supplied
inline policy document as its network-attachment grants. -/
structure ExecutionRole where
  inlinePolicyName : String
  inlinePolicyDocument : List PolicyStatement
deriving DecidableEq

/-- The custom-resource callback lambda function definition. -/
structure LambdaFunction where
  runtime : String
  handler : String
  codeAsset : String
  timeoutSeconds : Nat
  functionArn : String
deriving DecidableEq

/-- Properties of the Custom::VpcConfiguration request envelope.  All three
fields are required (list-typed, never null/absent). -/
structure VpcConfigurationProperties where
  ApplicationName : String
  SubnetIds : List String
  SecurityGroupIds : List String
deriving DecidableEq

/-- The cdk.CustomResource carrying the network-attachment request. -/
structure CustomResource where
  serviceToken : String
  properties : VpcConfigurationProperties
  resourceType : String
deriving DecidableEq

/-- FlinkApplication.createCustomResource: the callback role (scoped policy
document), the callback function, and the custom resource whose properties
default the optional lists to empty (the ?? [] in the source). -/
def createCustomResource (appName : String) (subnets : Option (List String))
    (securityGroups : Option (List String)) :
    ExecutionRole × LambdaFunction × CustomResource :=
  let vpcConfigDocument : List PolicyStatement :=
    [{ resources := ["arn:" ++ awsPartition ++ ":kinesisanalytics:" ++ awsRegion ++ ":" ++
        awsAccountId ++ ":application/" ++ appName],
       actions := [
        "kinesisanalytics:AddApplicationVpcConfiguration",
        "kinesisanalytics:DeleteApplicationVpcConfiguration",
        "kinesisanalytics:DescribeApplication"] }]
  let customResourceRole : ExecutionRole :=
    { inlinePolicyName := "VpcConfigPolicy", inlinePolicyDocument := vpcConfigDocument }
  let customResourceFunction : LambdaFunction :=
    { runtime := "PYTHON_3_8", handler := "lambda_function.handler",
      codeAsset := "lambda/kda-vpc-config", timeoutSeconds := 30,
      functionArn := customResourceFnArnToken }
  (customResourceRole, customResourceFunction,
    { serviceToken := customResourceFunction.functionArn,
      properties :=
        { ApplicationName := appName,
          SubnetIds := subnets.getD [],
          SecurityGroupIds := securityGroups.getD [] },
      resourceType := "Custom::VpcConfiguration" })

/-- The full output of a successful construction. -/
structure FlinkConstruct where
  logGroupRetentionDays : Nat
  appRole : Role
  conditions : List (String × CondExpr)
  application : ApplicationResource
  logging : CloudWatchLoggingOption
  customResourceRole : ExecutionRole
  customResourceFunction : LambdaFunction
  vpcConfiguration : CustomResource
deriving DecidableEq

/-- FlinkApplication.ApplicationName getter: this.Application.ref. -/
def FlinkConstruct.ApplicationName (c : FlinkConstruct) : String :=
  c.application.ref

/-- The resource graph assembled by the constructor body after validation
has passed, in source order. -/
def buildConstruct (p : FlinkApplicationProps) : FlinkConstruct :=
  let role := grantReadWrite p.outputBucketName
    (grantRead p.inputStreamName
      (createRole logGroupArnToken p.codeBucketArn p.codeFileKey))
  let conditions : List (String × CondExpr) :=
    [("EnableAutoScaling", CondExpr.eqStr p.enableAutoScaling "true"),
     ("EnableSnapshots", CondExpr.eqStr p.enableSnapshots "true")]
  let application : ApplicationResource :=
    { runtimeEnvironment := "FLINK-1_8",
      serviceExecutionRole := appRoleArnToken,
      codeBucketArn := p.codeBucketArn,
      codeFileKey := p.codeFileKey,
      codeContentType := "ZIPFILE",
      propertyGroupId := "FlinkApplicationProperties",
      propertyMap :=
        [("InputStreamName", p.inputStreamName),
         ("OutputBucketName", p.outputBucketName),
         ("Region", awsRegion)],
      monitoring :=
        { configurationType := "CUSTOM",
          logLevel := p.logLevel,
          metricsLevel := p.metricsLevel },
      parallelism :=
        { configurationType := "CUSTOM",
          autoScalingEnabled := CfnBool.conditionIf "EnableAutoScaling" true false },
      checkpointConfigurationType := "DEFAULT",
      snapshotsEnabled := CfnBool.conditionIf "EnableSnapshots" true false,
      ref := applicationRefToken }
  let logging := configureLogging application.ref logGroupNameToken logStreamNameToken
  let cr := createCustomResource application.ref p.subnetIds p.securityGroupIds
  { logGroupRetentionDays := p.logsRetentionDays,
    appRole := role,
    conditions := conditions,
    application := application,
    logging := logging,
    customResourceRole := cr.fst,
    customResourceFunction := cr.snd.fst,
    vpcConfiguration := cr.snd.snd }

/-- The FlinkApplication constructor: validation first (throwing), then the
resource graph. -/
def construct (p : FlinkApplicationProps) : Except String FlinkConstruct :=
  match validateVerbosity p with
  | some e => Except.error e
  | none => Except.ok (buildConstruct p)

/-- One statement of the constructor body, for the statement-ordered trace:
either one of the two validation checks (which may throw) or the definition
of a named resource. -/
inductive BuildStep
| checkLogLevel
| checkMetricsLevel
| defineResource (name : String)
deriving DecidableEq

/-- The constructor body as its ordered statement list: the two validation
checks come first, every resource definition after them (source lines
65-140, including the resources defined inside createRole and
createCustomResource). -/
def constructorSteps : List BuildStep :=
  [BuildStep.checkLogLevel,
   BuildStep.checkMetricsLevel,
   BuildStep.defineResource "LogGroup",
   BuildStep.defineResource "LogStream",
   BuildStep.defineResource "AppRole",
   BuildStep.defineResource "CodePolicy",
   BuildStep.defineResource "LogsPolicy",
   BuildStep.defineResource "VpcPolicy",
   BuildStep.defineResource "EnableAutoScaling",
   BuildStep.defineResource "EnableSnapshots",
   BuildStep.defineResource "Application",
   BuildStep.defineResource "Logging",
   BuildStep.defineResource "CustomResourceRole",
   BuildStep.defineResource "CustomResourceFunction",
   BuildStep.defineResource "VpcConfiguration"]

/-- Effect of one constructor statement: a validation check defines nothing
and may throw; a resource definition defines its resource. -/
def runStep (p : FlinkApplicationProps) : BuildStep → Except String (List String)
| BuildStep.checkLogLevel =>
  match validateLogLevel p with
  | some e => Except.error e
  | none => Except.ok []
| BuildStep.checkMetricsLevel =>
  match validateMetricsLevel p with
  | some e => Except.error e
  | none => Except.ok []
| BuildStep.defineResource n => Except.ok [n]

/-- Running the statement list in order, accumulating the resources defined
so far; a throw stops execution and returns what was already defined. -/
def runSteps (p : FlinkApplicationProps) :
    List BuildStep → List String → List String × Option String
| [], defined => (defined, none)
| s :: rest, defined =>
  match runStep p s with
  | Except.error e => (defined, some e)
  | Except.ok ns => runSteps p rest (defined ++ ns)

/-- The constructor's trace: the resources defined by the time it returns
or throws, and the error if it threw. -/
def constructTrace (p : FlinkApplicationProps) : List String × Option String :=
  runSteps p constructorSteps []

/-- The network-attachment request envelope issued through the custom
resource. -/
structure AttachmentRequest where
  applicationName : String
  subnetIds : List String
  securityGroupIds : List String
deriving DecidableEq

/-- The request the construct issues for its application. -/
def requestOf (c : FlinkConstruct) : AttachmentRequest :=
  { applicationName := c.vpcConfiguration.properties.ApplicationName,
    subnetIds := c.vpcConfiguration.properties.SubnetIds,
    securityGroupIds := c.vpcConfiguration.properties.SecurityGroupIds }

/-- Modelled from the spec: the effect of one Network Attachment Reconciler
invocation on the control plane's attachment state.  The callback function
(lambda/kda-vpc-config) is not under src/; per spec sections 3 and 4.6 the
request carries the full desired placement and the callback reconciles the
attachment of the named application to exactly the requested subnet and
security-group lists, other applications untouched. -/
def applyAttachment (s : String → Option (List String × List String))
    (r : AttachmentRequest) : String → Option (List String × List String) :=
  fun a => if a = r.applicationName then some (r.subnetIds, r.securityGroupIds) else s a

/-- Substring containment on strings, used to state what an error message
includes. -/
def strContains (needle hay : String) : Prop :=
  List.IsInfix needle.data hay.data

instance strContainsDecidable (needle hay : String) : Decidable (strContains needle hay) :=
  List.decidableInfix needle.data hay.data

/-- Concrete well-formed props used for witnesses. -/
def exampleProps : FlinkApplicationProps :=
  { inputStreamName := "input-stream",
    outputBucketName := "output-bucket",
    logsRetentionDays := 7,
    logLevel := CdkStr.lit "INFO",
    metricsLevel := CdkStr.lit "APPLICATION",
    codeBucketArn := "arn:aws:s3:::code-bucket",
    codeFileKey := "app.zip",
    enableSnapshots := CdkStr.lit "false",
    enableAutoScaling := CdkStr.lit "true",
    subnetIds := none,
    securityGroupIds := none }

/-- Concrete props with an invalid, concretely known log level. -/
def badLogLevelProps : FlinkApplicationProps :=
  { exampleProps with logLevel := CdkStr.lit "FOO" }

/-- Helper: a successful construction returns exactly the assembled graph. -/
theorem construct_ok_elim (p : FlinkApplicationProps) (c : FlinkConstruct)
    (h : construct p = Except.ok c) : c = buildConstruct p := by
  unfold construct at h
  cases hv : validateVerbosity p with
  | some e => rw [hv] at h; cases h
  | none => rw [hv] at h; injection h with h2; exact h2.symm

/-- Helper: a string contains itself as a substring after any prepended
text. -/
theorem strContains_append_right (pre s : String) : strContains s (pre ++ s) := by
  unfold strContains
  rw [String.data_append]
  exact (List.suffix_append _ _).isInfix

/-- C1: construction of the FlinkApplication throws an error exactly when a
verbosity input (logLevel or metricsLevel) is concretely known (not an
unresolved token) and outside its allowed set; every value in the allowed
set and every unresolved token passes verbosity validation. -/
theorem construct_error_iff_invalid_verbosity (p : FlinkApplicationProps) :
    (∃ e, construct p = Except.error e) ↔
      ((Token.isUnresolved p.logLevel = false ∧
          strOf p.logLevel ∉ FlinkApplication.AllowedLogLevels) ∨
        (Token.isUnresolved p.metricsLevel = false ∧
          strOf p.metricsLevel ∉ FlinkApplication.AllowedMetricLevels)) := by
  unfold construct validateVerbosity validateLogLevel validateMetricsLevel
  split_ifs with h1 h2 <;> simp_all

/-- C3 counterexample: the validation failure for the concretely known log
level FOO names the value, but the message contains no member of the
allowed set, so the error message does not include the allowed set. -/
theorem validation_error_omits_allowed_set :
    construct badLogLevelProps = Except.error "Unknown log level: FOO" ∧
    FlinkApplication.AllowedLogLevels.all
      (fun lvl => !(decide (strContains lvl "Unknown log level: FOO"))) = true := by
  constructor
  · rfl
  · decide

/-- C3 amended: every validation failure raised at construction time
includes the offending input value in its error message (the message is the
fixed field text followed by the value), but not the allowed set. -/
theorem validation_error_names_offending_value (p : FlinkApplicationProps)
    (m : String) (h : construct p = Except.error m) :
    (m = "Unknown log level: " ++ strOf p.logLevel ∧
      strContains (strOf p.logLevel) m) ∨
    (m = "Unknown metrics level: " ++ strOf p.metricsLevel ∧
      strContains (strOf p.metricsLevel) m) := by
  have hv : validateVerbosity p = some m := by
    unfold construct at h
    cases hvv : validateVerbosity p with
    | some e => rw [hvv] at h; injection h with h2; rw [h2]
    | none => rw [hvv] at h; cases h
  unfold validateVerbosity at hv
  cases hl : validateLogLevel p with
  | some e =>
    rw [hl] at hv
    injection hv with hv2
    subst hv2
    left
    unfold validateLogLevel at hl
    split_ifs at hl with h1
    injection hl with hl2
    refine ⟨hl2.symm, ?_⟩
    rw [← hl2]
    exact strContains_append_right _ _
  | none =>
    rw [hl] at hv
    right
    unfold validateMetricsLevel at hv
    split_ifs at hv with h1
    injection hv with hv2
    refine ⟨hv2.symm, ?_⟩
    rw [← hv2]
    exact strContains_append_right _ _

/-- C3 amended witness: the concrete invalid log level FOO produces the
message naming FOO. -/
theorem validation_error_names_offending_value_witness :
    ("Unknown log level: FOO" =
        "Unknown log level: " ++ strOf badLogLevelProps.logLevel ∧
      strContains (strOf badLogLevelProps.logLevel) "Unknown log level: FOO") ∨
    ("Unknown log level: FOO" =
        "Unknown metrics level: " ++ strOf badLogLevelProps.metricsLevel ∧
      strContains (strOf badLogLevelProps.metricsLevel) "Unknown log level: FOO") :=
  validation_error_names_offending_value badLogLevelProps "Unknown log level: FOO" (by rfl)

/-- C2: the policy set attached to the execution role of every successful
construction is exactly seven grants: the scoped artifact-read statement,
the wildcard log-group-describe statement, the log-group-scoped stream
statement, the wildcard network-interface-lifecycle statement, the scoped
network-interface-permission statement, the input stream's read grant, and
the output bucket's read/write grant, no more, no fewer. -/
theorem execution_role_exactly_seven_grants (p : FlinkApplicationProps)
    (c : FlinkConstruct) (h : construct p = Except.ok c) :
    roleGrants c.appRole =
      [Grant.statement
        { resources := [p.codeBucketArn ++ "/" ++ p.codeFileKey],
          actions := ["s3:GetObjectVersion", "s3:GetObject"] },
       Grant.statement
        { resources := ["arn:" ++ awsPartition ++ ":logs:" ++ awsRegion ++ ":" ++
            awsAccountId ++ ":log-group:*"],
          actions := ["logs:DescribeLogGroups"] },
       Grant.statement
        { resources := [logGroupArnToken],
          actions := ["logs:DescribeLogStreams", "logs:PutLogEvents"] },
       Grant.statement
        { resources := ["*"],
          actions := [
            "ec2:CreateNetworkInterface",
            "ec2:DescribeNetworkInterfaces",
            "ec2:DescribeVpcs",
            "ec2:DeleteNetworkInterface",
            "ec2:DescribeDhcpOptions",
            "ec2:DescribeSubnets",
            "ec2:DescribeSecurityGroups"] },
       Grant.statement
        { resources := ["arn:" ++ awsPartition ++ ":ec2:" ++ awsRegion ++ ":" ++
            awsAccountId ++ ":network-interface/*"],
          actions := ["ec2:CreateNetworkInterfacePermission"] },
       Grant.streamRead p.inputStreamName,
       Grant.bucketReadWrite p.outputBucketName] ∧
    (roleGrants c.appRole).length = 7 := by
  have hc := construct_ok_elim p c h
  subst hc
  exact ⟨rfl, rfl⟩

/-- C2 witness: on concrete props the role carries exactly seven grants. -/
theorem execution_role_exactly_seven_grants_witness :
    (roleGrants (buildConstruct exampleProps).appRole).length = 7 :=
  (execution_role_exactly_seven_grants exampleProps (buildConstruct exampleProps) rfl).2

/-- C4: for each feature toggle the construct stores a deferred equality
expression (toggle equals the literal string true) as a named condition and
embeds a deferred ternary over it in the auto-scaling-enabled and
snapshots-enabled fields; once resolved, each expression yields true
exactly when the toggle input resolves to the string true and false for
every other string. -/
theorem feature_toggles_deferred_equality (p : FlinkApplicationProps)
    (c : FlinkConstruct) (h : construct p = Except.ok c) :
    c.conditions =
      [("EnableAutoScaling", CondExpr.eqStr p.enableAutoScaling "true"),
       ("EnableSnapshots", CondExpr.eqStr p.enableSnapshots "true")] ∧
    c.application.parallelism.autoScalingEnabled =
      CfnBool.conditionIf "EnableAutoScaling" true false ∧
    c.application.snapshotsEnabled = CfnBool.conditionIf "EnableSnapshots" true false ∧
    (∀ ρ : Nat → String,
      resolveCfnBool ρ c.conditions c.application.parallelism.autoScalingEnabled =
        (resolveStr ρ p.enableAutoScaling == "true") ∧
      resolveCfnBool ρ c.conditions c.application.snapshotsEnabled =
        (resolveStr ρ p.enableSnapshots == "true")) := by
  have hc := construct_ok_elim p c h
  subst hc
  refine ⟨rfl, rfl, rfl, ?_⟩
  intro ρ
  constructor
  · have h1 : resolveCfnBool ρ (buildConstruct p).conditions
        (buildConstruct p).application.parallelism.autoScalingEnabled =
        (if resolveStr ρ p.enableAutoScaling == "true" then true else false) := rfl
    rw [h1]
    cases hb : resolveStr ρ p.enableAutoScaling == "true" <;> simp [hb]
  · have h1 : resolveCfnBool ρ (buildConstruct p).conditions
        (buildConstruct p).application.snapshotsEnabled =
        (if resolveStr ρ p.enableSnapshots == "true" then true else false) := rfl
    rw [h1]
    cases hb : resolveStr ρ p.enableSnapshots == "true" <;> simp [hb]

/-- C4 witness: with toggles true and false, the deferred expressions
resolve to true and false. -/
theorem feature_toggles_deferred_equality_witness :
    resolveCfnBool (fun _ => "") (buildConstruct exampleProps).conditions
      (buildConstruct exampleProps).application.parallelism.autoScalingEnabled = true ∧
    resolveCfnBool (fun _ => "") (buildConstruct exampleProps).conditions
      (buildConstruct exampleProps).application.snapshotsEnabled = false := by
  have h := (feature_toggles_deferred_equality exampleProps
    (buildConstruct exampleProps) rfl).2.2.2 (fun _ => "")
  exact ⟨h.1.trans (by decide), h.2.trans (by decide)⟩

/-- C5: the network-attachment request always carries both lists: supplied
lists (empty included) are passed through and omitted optional inputs
default to empty lists; the property fields are list-typed and therefore
never null or absent. -/
theorem attachment_request_lists_always_present (p : FlinkApplicationProps)
    (c : FlinkConstruct) (h : construct p = Except.ok c) :
    c.vpcConfiguration.properties.SubnetIds = p.subnetIds.getD [] ∧
    c.vpcConfiguration.properties.SecurityGroupIds = p.securityGroupIds.getD [] ∧
    (p.subnetIds = none → c.vpcConfiguration.properties.SubnetIds = []) ∧
    (p.securityGroupIds = none → c.vpcConfiguration.properties.SecurityGroupIds = []) ∧
    (p.subnetIds = some [] → c.vpcConfiguration.properties.SubnetIds = []) ∧
    (p.securityGroupIds = some [] → c.vpcConfiguration.properties.SecurityGroupIds = []) := by
  have hc := construct_ok_elim p c h
  subst hc
  refine ⟨rfl, rfl, ?_, ?_, ?_, ?_⟩ <;>
    intro hx <;>
    first
    | (show p.subnetIds.getD [] = []
       rw [hx]
       rfl)
    | (show p.securityGroupIds.getD [] = []
       rw [hx]
       rfl)

/-- C5 witness: omitted lists become empty lists in the request. -/
theorem attachment_request_lists_always_present_witness :
    (buildConstruct exampleProps).vpcConfiguration.properties.SubnetIds = [] :=
  (attachment_request_lists_always_present exampleProps
    (buildConstruct exampleProps) rfl).2.2.1 rfl

/-- C6: applying the network-attachment request twice leaves the same end
state as applying it once, and the request the construct produces is a
function of the application name and the two (defaulted) lists alone, so
identical inputs produce the identical request. -/
theorem network_attachment_idempotent :
    (∀ (s : String → Option (List String × List String)) (r : AttachmentRequest),
      applyAttachment (applyAttachment s r) r = applyAttachment s r) ∧
    (∀ p : FlinkApplicationProps,
      requestOf (buildConstruct p) =
        { applicationName := applicationRefToken,
          subnetIds := p.subnetIds.getD [],
          securityGroupIds := p.securityGroupIds.getD [] }) := by
  constructor
  · intro s r
    funext a
    unfold applyAttachment
    by_cases hx : a = r.applicationName <;> simp [hx]
  · intro p
    rfl

/-- C7: the callback role's inline policy document is exactly one statement
carrying the three kinesisanalytics actions, scoped to the application's
identifier pattern. -/
theorem callback_role_three_actions_scoped (p : FlinkApplicationProps)
    (c : FlinkConstruct) (h : construct p = Except.ok c) :
    c.customResourceRole.inlinePolicyDocument =
      [{ resources := ["arn:" ++ awsPartition ++ ":kinesisanalytics:" ++ awsRegion ++
          ":" ++ awsAccountId ++ ":application/" ++ c.ApplicationName],
         actions := [
          "kinesisanalytics:AddApplicationVpcConfiguration",
          "kinesisanalytics:DeleteApplicationVpcConfiguration",
          "kinesisanalytics:DescribeApplication"] }] := by
  have hc := construct_ok_elim p c h
  subst hc
  rfl

/-- C7 witness: the concrete construction carries exactly that document. -/
theorem callback_role_three_actions_scoped_witness :
    (buildConstruct exampleProps).customResourceRole.inlinePolicyDocument =
      [{ resources := ["arn:" ++ awsPartition ++ ":kinesisanalytics:" ++ awsRegion ++
          ":" ++ awsAccountId ++ ":application/" ++
          (buildConstruct exampleProps).ApplicationName],
         actions := [
          "kinesisanalytics:AddApplicationVpcConfiguration",
          "kinesisanalytics:DeleteApplicationVpcConfiguration",
          "kinesisanalytics:DescribeApplication"] }] :=
  callback_role_three_actions_scoped exampleProps (buildConstruct exampleProps) rfl

/-- C8: whenever the constructor trace ends in a thrown validation error,
the set of resources defined by the construct at that point is empty, so
nothing is partially constructed on a validation failure. -/
theorem validation_fails_before_any_resource (p : FlinkApplicationProps)
    (rs : List String) (e : String) (h : constructTrace p = (rs, some e)) :
    rs = [] := by
  unfold constructTrace at h
  cases h1 : validateLogLevel p with
  | some e1 =>
    simp [constructorSteps, runSteps, runStep, h1] at h
    exact h.1
  | none =>
    cases h2 : validateMetricsLevel p with
    | some e2 =>
      simp [constructorSteps, runSteps, runStep, h1, h2] at h
      exact h.1
    | none =>
      simp [constructorSteps, runSteps, runStep, h1, h2] at h

/-- C8 witness: the concrete invalid log level throws with no resources
defined. -/
theorem validation_fails_before_any_resource_witness :
    (constructTrace badLogLevelProps).fst = [] :=
  validation_fails_before_any_resource badLogLevelProps
    (constructTrace badLogLevelProps).fst "Unknown log level: FOO" (by rfl)

/-- C9: the CodePolicy grant is read-only (the two get-object actions only)
and scoped exactly to the single object path bucketArn/fileKey, which is
never the bucket ARN itself. -/
theorem code_artifact_grant_read_only (p : FlinkApplicationProps)
    (c : FlinkConstruct) (h : construct p = Except.ok c) :
    c.appRole.policies.filter (fun pol => pol.name == "CodePolicy") =
      [{ name := "CodePolicy",
         statements := [
          { resources := [p.codeBucketArn ++ "/" ++ p.codeFileKey],
            actions := ["s3:GetObjectVersion", "s3:GetObject"] }],
         suppressions := [] }] ∧
    p.codeBucketArn ++ "/" ++ p.codeFileKey ≠ p.codeBucketArn := by
  have hc := construct_ok_elim p c h
  subst hc
  constructor
  · rfl
  · intro heq
    have h2 := congrArg String.length heq
    rw [String.length_append, String.length_append] at h2
    have h3 : String.length "/" = 1 := rfl
    rw [h3] at h2
    omega

/-- C9 witness: the concrete construction's CodePolicy is the scoped
read-only statement. -/
theorem code_artifact_grant_read_only_witness :
    (buildConstruct exampleProps).appRole.policies.filter
        (fun pol => pol.name == "CodePolicy") =
      [{ name := "CodePolicy",
         statements := [
          { resources := ["arn:aws:s3:::code-bucket" ++ "/" ++ "app.zip"],
            actions := ["s3:GetObjectVersion", "s3:GetObject"] }],
         suppressions := [] }] :=
  (code_artifact_grant_read_only exampleProps (buildConstruct exampleProps) rfl).1

/-- C10: the application name used by the logging attachment, the name in
the network-attachment request, and the name embedded in the callback
role's resource pattern all equal the construct's ApplicationName output. -/
theorem application_name_consistent (p : FlinkApplicationProps)
    (c : FlinkConstruct) (h : construct p = Except.ok c) :
    c.logging.applicationName = c.ApplicationName ∧
    c.vpcConfiguration.properties.ApplicationName = c.ApplicationName ∧
    c.customResourceRole.inlinePolicyDocument.map (fun st => st.resources) =
      [["arn:" ++ awsPartition ++ ":kinesisanalytics:" ++ awsRegion ++ ":" ++
        awsAccountId ++ ":application/" ++ c.ApplicationName]] := by
  have hc := construct_ok_elim p c h
  subst hc
  exact ⟨rfl, rfl, rfl⟩

/-- C10 witness: the concrete construction uses one consistent name. -/
theorem application_name_consistent_witness :
    (buildConstruct exampleProps).logging.applicationName =
      (buildConstruct exampleProps).ApplicationName :=
  (application_name_consistent exampleProps (buildConstruct exampleProps) rfl).1

end KdaFlink
